import Mathlib

/-!
Shallow embedding of `src/webpack/webpack.local.config.js`.

The script loads a base webpack configuration object, mutates five places on
it (`entry`, `output.publicPath`, `plugins`, `devtool`, `module.rules`) and
exports the mutated object.  We model the configuration object as a record
whose touched fields are `Option`-valued (a missing field in JavaScript is
`undefined`); fields the script never reads or writes are modelled as an
association list `others`, both at top level and inside `output` and
`module`.  The whole script becomes a pure function
`webpackLocalConfig : Config → Except String Config`: accessing a member of
a missing (`none`) field yields a JavaScript `TypeError`, modelled as
`Except.error`, in the order the statements of the script run.

The two regular-expression literals of the source, `/\.jsx?$/` and
`/node_modules/`, are embedded as `RegularExpression Char` terms, and the
JavaScript `RegExp.test` search semantics (match any substring; `$` anchors
the match at the end of the input) as `regexSearch` / `regexSearchEnd`.
-/

open RegularExpression

/-- Opaque plugin instances.  The three constructed by the script are named;
`basePlugin` stands for an arbitrary plugin already present in the base
configuration. -/
inductive Plugin where
  | HotModuleReplacementPlugin : Plugin
  | NoEmitOnErrorsPlugin : Plugin
  | BundleTracker (filename : String) : Plugin
  | basePlugin (id : Nat) : Plugin
deriving DecidableEq, Repr

/-- A loader rule of `module.rules`: a file-name pattern, an optional
exclusion pattern, and a list of loader names. -/
structure Rule where
  test : RegularExpression Char
  exclude : Option (RegularExpression Char)
  loaders : List String

/-- The `output` sub-object of a webpack configuration: the script touches
only `publicPath`; everything else is in `others`. -/
structure OutputCfg where
  publicPath : Option String
  others : List (String × String)

/-- The `module` sub-object of a webpack configuration: the script touches
only `rules`; everything else is in `others`. -/
structure ModuleCfg where
  rules : Option (List Rule)
  others : List (String × String)

/-- A webpack configuration object.  Fields the script touches are explicit
and `Option`-valued (`none` models a missing/`undefined` member of the base
configuration); all remaining top-level fields are in `others`. -/
structure Config where
  entry : Option (List String)
  output : Option OutputCfg
  plugins : Option (List Plugin)
  devtool : Option String
  module : Option ModuleCfg
  others : List (String × String)

/-- The regular expression `/\.jsx?$/` from the source: a literal dot, then
`js`, then an optional `x` (`1 + char c` is the Kleene option `c?`). -/
def jsxTestPat : RegularExpression Char :=
  char '.' * char 'j' * char 's' * (1 + char 'x')

/-- A regular expression matching exactly one given word (used for the
literal pattern `/node_modules/`). -/
def stringPat : List Char → RegularExpression Char
  | [] => 1
  | c :: cs => char c * stringPat cs

/-- The characters of the word `node_modules`. -/
def nodeModulesWord : List Char :=
  ['n', 'o', 'd', 'e', '_', 'm', 'o', 'd', 'u', 'l', 'e', 's']

/-- The regular expression `/node_modules/` from the source. -/
def nodeModulesPat : RegularExpression Char :=
  stringPat nodeModulesWord

/-- JavaScript `RegExp.test` for an end-anchored pattern `/P$/`: some
suffix of the input is matched by `P`. -/
def regexSearchEnd (r : RegularExpression Char) (cs : List Char) : Bool :=
  cs.tails.any fun t => r.rmatch t

/-- JavaScript `RegExp.test` for an unanchored pattern `/P/`: some
substring of the input is matched by `P`. -/
def regexSearch (r : RegularExpression Char) (cs : List Char) : Bool :=
  cs.tails.any fun t => t.inits.any fun p => r.rmatch p

/-- The loader rule pushed onto `module.rules` by the script:
`test: /\.jsx?$/, exclude: /node_modules/, loaders: ['babel-loader']`. -/
def jsxRule : Rule :=
  { test := jsxTestPat
    exclude := some nodeModulesPat
    loaders := ["babel-loader"] }

/-- The three entry specifiers the script assigns to `config.entry`. -/
def localEntry : List String :=
  [ "webpack-dev-server/client?http://localhost:3000"
  , "webpack/hot/only-dev-server"
  , "../assets/js/app.js" ]

/-- The dev-server asset URL assigned to `config.output.publicPath`. -/
def bundlesPublicPath : String := "http://localhost:3000/assets/bundles/"

/-- The three plugin instances concatenated onto `config.plugins`. -/
def addedPlugins : List Plugin :=
  [ Plugin.HotModuleReplacementPlugin
  , Plugin.NoEmitOnErrorsPlugin
  , Plugin.BundleTracker "./webpack-stats.json" ]

/-- The whole script `webpack.local.config.js` as a function of the base
configuration it `require`s.  Errors reproduce, in statement order, the
`TypeError`s JavaScript raises on a member access of `undefined`:
`config.output.publicPath = ...` needs `output`, `config.plugins.concat`
needs `plugins`, and `config.module.rules.push` needs `module` and then
`module.rules`. -/
def webpackLocalConfig (c : Config) : Except String Config :=
  match c.output, c.plugins, c.module with
  | none, _, _ =>
      Except.error "TypeError: cannot set publicPath of undefined"
  | some _, none, _ =>
      Except.error "TypeError: cannot read concat of undefined"
  | some _, some _, none =>
      Except.error "TypeError: cannot read rules of undefined"
  | some o, some ps, some m =>
      match m.rules with
      | none =>
          Except.error "TypeError: cannot read push of undefined"
      | some rs =>
          Except.ok
            { entry := some localEntry
              output := some { o with publicPath := some bundlesPublicPath }
              plugins := some (ps ++ addedPlugins)
              devtool := some "inline-source-map"
              module := some { m with rules := some (rs ++ [jsxRule]) }
              others := c.others }

/-! ## Characterisation of the two regular expressions -/

/-- The pattern `stringPat w` matches exactly the word `w`. -/
theorem stringPat_rmatch (w : List Char) :
    ∀ t : List Char, (stringPat w).rmatch t = true ↔ t = w := by
  induction w with
  | nil =>
      intro t
      simp [stringPat, one_rmatch_iff]
  | cons c cs ih =>
      intro t
      simp only [stringPat, mul_rmatch_iff, char_rmatch_iff, ih]
      constructor
      · rintro ⟨t₁, u, rfl, rfl, rfl⟩
        rfl
      · rintro rfl
        exact ⟨[c], cs, rfl, rfl, rfl⟩

/-- The pattern `/\.jsx?$/` matches a whole word iff it is `.js` or `.jsx`. -/
theorem jsxTestPat_rmatch (t : List Char) :
    jsxTestPat.rmatch t = true ↔
      t = ['.', 'j', 's'] ∨ t = ['.', 'j', 's', 'x'] := by
  simp only [jsxTestPat, mul_rmatch_iff, char_rmatch_iff, add_rmatch_iff,
    one_rmatch_iff]
  constructor
  · rintro ⟨t₁, u, rfl, ⟨t₂, u₂, rfl, ⟨t₃, u₃, rfl, rfl, rfl⟩, rfl⟩, hu⟩
    rcases hu with rfl | rfl
    · exact Or.inl rfl
    · exact Or.inr rfl
  · rintro (rfl | rfl)
    · exact ⟨['.', 'j', 's'], [], rfl,
        ⟨['.', 'j'], ['s'], rfl, ⟨['.'], ['j'], rfl, rfl, rfl⟩, rfl⟩,
        Or.inl rfl⟩
    · exact ⟨['.', 'j', 's'], ['x'], rfl,
        ⟨['.', 'j'], ['s'], rfl, ⟨['.'], ['j'], rfl, rfl, rfl⟩, rfl⟩,
        Or.inr rfl⟩

/-- The end-anchored search with `/\.jsx?$/` succeeds exactly on inputs
ending in `.js` or `.jsx`. -/
theorem regexSearchEnd_jsx (cs : List Char) :
    regexSearchEnd jsxTestPat cs = true ↔
      ['.', 'j', 's'] <:+ cs ∨ ['.', 'j', 's', 'x'] <:+ cs := by
  simp only [regexSearchEnd, List.any_eq_true, List.mem_tails,
    jsxTestPat_rmatch]
  constructor
  · rintro ⟨t, hsuf, rfl | rfl⟩
    · exact Or.inl hsuf
    · exact Or.inr hsuf
  · rintro (h | h)
    · exact ⟨_, h, Or.inl rfl⟩
    · exact ⟨_, h, Or.inr rfl⟩

/-- The unanchored search with `/node_modules/` succeeds exactly on inputs
containing `node_modules` as a substring. -/
theorem regexSearch_nodeModules (cs : List Char) :
    regexSearch nodeModulesPat cs = true ↔ nodeModulesWord <:+: cs := by
  simp only [regexSearch, nodeModulesPat, List.any_eq_true, List.mem_tails,
    List.mem_inits, stringPat_rmatch, List.infix_iff_prefix_suffix]
  constructor
  · rintro ⟨t, hsuf, p, hpre, rfl⟩
    exact ⟨t, hpre, hsuf⟩
  · rintro ⟨t, hpre, hsuf⟩
    exact ⟨t, hsuf, _, hpre, rfl⟩

/-! ## Concrete fixtures used by the witness theorems -/

/-- A sample well-formed base configuration. -/
def sampleConfig : Config :=
  { entry := some ["./old-entry.js"]
    output := some { publicPath := some "/static/", others := [("path", "dist")] }
    plugins := some [Plugin.basePlugin 0]
    devtool := some "eval"
    module := some { rules := some [], others := [("noParse", "x")] }
    others := [("mode", "development"), ("target", "web")] }

/-- The configuration the overlay produces from `sampleConfig`. -/
def sampleResult : Config :=
  { entry := some localEntry
    output := some { publicPath := some bundlesPublicPath, others := [("path", "dist")] }
    plugins := some ([Plugin.basePlugin 0] ++ addedPlugins)
    devtool := some "inline-source-map"
    module := some { rules := some ([] ++ [jsxRule]), others := [("noParse", "x")] }
    others := [("mode", "development"), ("target", "web")] }

/-- A base configuration missing its `output` field. -/
def noOutputConfig : Config :=
  { entry := none, output := none, plugins := some [], devtool := none
    module := some { rules := some [], others := [] }, others := [] }

/-- A base configuration missing its `plugins` field. -/
def noPluginsConfig : Config :=
  { entry := none
    output := some { publicPath := none, others := [] }
    plugins := none, devtool := none
    module := some { rules := some [], others := [] }, others := [] }

/-- A base configuration missing its `module.rules` field. -/
def noRulesConfig : Config :=
  { entry := none
    output := some { publicPath := none, others := [] }
    plugins := some [], devtool := none
    module := some { rules := none, others := [] }, others := [] }

/-! ## The claims -/

/-- A successful run of the overlay determines the output completely from
the four fields it reads on the input. -/
theorem webpackLocalConfig_ok (c c' : Config)
    (h : webpackLocalConfig c = Except.ok c') :
    ∃ o ps m rs,
      c.output = some o ∧ c.plugins = some ps ∧ c.module = some m ∧
      m.rules = some rs ∧
      c' = { entry := some localEntry
             output := some { o with publicPath := some bundlesPublicPath }
             plugins := some (ps ++ addedPlugins)
             devtool := some "inline-source-map"
             module := some { m with rules := some (rs ++ [jsxRule]) }
             others := c.others } := by
  unfold webpackLocalConfig at h
  split at h
  · exact Except.noConfusion h
  · exact Except.noConfusion h
  · exact Except.noConfusion h
  · split at h
    · exact Except.noConfusion h
    · cases h
      exact ⟨_, _, _, _, by assumption, by assumption, by assumption,
        by assumption, rfl⟩

/-- C1: for every base configuration, the overlay output retains every
top-level field of the input other than `entry`, `output.publicPath`,
`plugins`, `devtool`, and `module.rules`, unchanged: the untouched
top-level fields (`others`), and the untouched sub-fields of `output` and
`module`, are carried over verbatim. -/
theorem overlay_preserves_untouched (c c' : Config)
    (h : webpackLocalConfig c = Except.ok c') :
    c'.others = c.others ∧
    c'.output.map OutputCfg.others = c.output.map OutputCfg.others ∧
    c'.module.map ModuleCfg.others = c.module.map ModuleCfg.others := by
  obtain ⟨o, ps, m, rs, ho, hp, hm, hr, rfl⟩ := webpackLocalConfig_ok c c' h
  simp [ho, hm]

/-- C1 witness at `sampleConfig`. -/
theorem overlay_preserves_untouched_witness :
    webpackLocalConfig sampleConfig = Except.ok sampleResult ∧
    sampleResult.others = sampleConfig.others :=
  ⟨rfl, (overlay_preserves_untouched sampleConfig sampleResult rfl).1⟩

/-- C2: for every base configuration on which the overlay succeeds, the
output `entry` is exactly the fixed three-element ordered list
(dev-server client, hot-reload runtime, application entry), regardless of
the prior `entry`. -/
theorem overlay_entry (c c' : Config)
    (h : webpackLocalConfig c = Except.ok c') :
    c'.entry = some localEntry ∧
    localEntry =
      [ "webpack-dev-server/client?http://localhost:3000"
      , "webpack/hot/only-dev-server"
      , "../assets/js/app.js" ] ∧
    localEntry.length = 3 := by
  obtain ⟨o, ps, m, rs, ho, hp, hm, hr, rfl⟩ := webpackLocalConfig_ok c c' h
  exact ⟨rfl, rfl, rfl⟩

/-- C2 witness at `sampleConfig`. -/
theorem overlay_entry_witness :
    webpackLocalConfig sampleConfig = Except.ok sampleResult ∧
    sampleResult.entry = some localEntry :=
  ⟨rfl, (overlay_entry sampleConfig sampleResult rfl).1⟩

/-- C3: for every base configuration whose `plugins` has length `n`, the
output `plugins` has length `n + 3`, the original elements form a
contiguous prefix in order, and the three appended elements are, in order,
the hot-module-replacement plugin, the no-emit-on-error plugin, and the
bundle-tracker plugin. -/
theorem overlay_plugins (c c' : Config) (ps : List Plugin)
    (hps : c.plugins = some ps)
    (h : webpackLocalConfig c = Except.ok c') :
    c'.plugins = some (ps ++ addedPlugins) ∧
    (ps ++ addedPlugins).length = ps.length + 3 ∧
    (ps ++ addedPlugins).take ps.length = ps ∧
    (ps ++ addedPlugins).drop ps.length =
      [ Plugin.HotModuleReplacementPlugin
      , Plugin.NoEmitOnErrorsPlugin
      , Plugin.BundleTracker "./webpack-stats.json" ] := by
  obtain ⟨o, ps', m, rs, ho, hp, hm, hr, rfl⟩ := webpackLocalConfig_ok c c' h
  rw [hps] at hp
  cases hp
  simp [addedPlugins, List.take_left, List.drop_left]

/-- C3 witness at `sampleConfig`. -/
theorem overlay_plugins_witness :
    sampleConfig.plugins = some [Plugin.basePlugin 0] ∧
    webpackLocalConfig sampleConfig = Except.ok sampleResult ∧
    sampleResult.plugins = some ([Plugin.basePlugin 0] ++ addedPlugins) :=
  ⟨rfl, rfl,
    (overlay_plugins sampleConfig sampleResult [Plugin.basePlugin 0] rfl rfl).1⟩

/-- C4: for every base configuration whose `module.rules` has length `n`,
the output `module.rules` has length `n + 1` with the original elements
unchanged in order and the new rule appended last; the appended rule
matches exactly the files ending in `.js` or `.jsx`, excludes exactly the
paths containing `node_modules`, and applies the `babel-loader`
transpilation loader. -/
theorem overlay_module_rules (c c' : Config) (m : ModuleCfg) (rs : List Rule)
    (hm : c.module = some m) (hrs : m.rules = some rs)
    (h : webpackLocalConfig c = Except.ok c') :
    (∃ m', c'.module = some m' ∧ m'.rules = some (rs ++ [jsxRule]) ∧
      (rs ++ [jsxRule]).length = rs.length + 1 ∧
      (rs ++ [jsxRule]).take rs.length = rs) ∧
    (∀ cs : List Char, regexSearchEnd jsxRule.test cs = true ↔
      ['.', 'j', 's'] <:+ cs ∨ ['.', 'j', 's', 'x'] <:+ cs) ∧
    jsxRule.exclude = some nodeModulesPat ∧
    (∀ cs : List Char, regexSearch nodeModulesPat cs = true ↔
      nodeModulesWord <:+: cs) ∧
    jsxRule.loaders = ["babel-loader"] := by
  obtain ⟨o, ps, m', rs', ho, hp, hm', hr', rfl⟩ := webpackLocalConfig_ok c c' h
  rw [hm] at hm'
  cases hm'
  rw [hrs] at hr'
  cases hr'
  refine ⟨⟨_, rfl, rfl, by simp, List.take_left rs [jsxRule]⟩, ?_, rfl, ?_, rfl⟩
  · intro cs
    exact regexSearchEnd_jsx cs
  · intro cs
    exact regexSearch_nodeModules cs

/-- C4 witness at `sampleConfig`. -/
theorem overlay_module_rules_witness :
    sampleConfig.module = some { rules := some [], others := [("noParse", "x")] } ∧
    webpackLocalConfig sampleConfig = Except.ok sampleResult ∧
    (∃ m', sampleResult.module = some m' ∧
      m'.rules = some (([] : List Rule) ++ [jsxRule]) ∧
      (([] : List Rule) ++ [jsxRule]).length = ([] : List Rule).length + 1 ∧
      (([] : List Rule) ++ [jsxRule]).take ([] : List Rule).length = []) :=
  ⟨rfl, rfl,
    (overlay_module_rules sampleConfig sampleResult
      { rules := some [], others := [("noParse", "x")] } [] rfl rfl rfl).1⟩

/-- C5: for every base configuration on which the overlay succeeds, the
output `output.publicPath` equals the fixed dev-server asset URL,
regardless of its prior value. -/
theorem overlay_publicPath (c c' : Config)
    (h : webpackLocalConfig c = Except.ok c') :
    ∃ o, c'.output = some o ∧
      o.publicPath = some "http://localhost:3000/assets/bundles/" := by
  obtain ⟨o, ps, m, rs, ho, hp, hm, hr, rfl⟩ := webpackLocalConfig_ok c c' h
  exact ⟨_, rfl, rfl⟩

/-- C5 witness at `sampleConfig`. -/
theorem overlay_publicPath_witness :
    webpackLocalConfig sampleConfig = Except.ok sampleResult ∧
    (∃ o, sampleResult.output = some o ∧
      o.publicPath = some "http://localhost:3000/assets/bundles/") :=
  ⟨rfl, overlay_publicPath sampleConfig sampleResult rfl⟩

/-- C6: for every base configuration on which the overlay succeeds, the
output `devtool` equals the fixed value selecting inline source maps,
regardless of its prior value. -/
theorem overlay_devtool (c c' : Config)
    (h : webpackLocalConfig c = Except.ok c') :
    c'.devtool = some "inline-source-map" := by
  obtain ⟨o, ps, m, rs, ho, hp, hm, hr, rfl⟩ := webpackLocalConfig_ok c c' h
  rfl

/-- C6 witness at `sampleConfig`. -/
theorem overlay_devtool_witness :
    webpackLocalConfig sampleConfig = Except.ok sampleResult ∧
    sampleResult.devtool = some "inline-source-map" :=
  ⟨rfl, overlay_devtool sampleConfig sampleResult rfl⟩

/-- C7: the overlay is not idempotent.  Applying it a second time succeeds
and appends the three plugins and the one rule again, so `plugins` grows
from `p` to `p + 6` over the two applications and `module.rules` from `r`
to `r + 2`, while `entry`, `output.publicPath` and `devtool` are unchanged
by the second application. -/
theorem overlay_not_idempotent (c c₁ : Config) (ps : List Plugin)
    (m : ModuleCfg) (rs : List Rule)
    (hps : c.plugins = some ps) (hm : c.module = some m)
    (hrs : m.rules = some rs)
    (h₁ : webpackLocalConfig c = Except.ok c₁) :
    ∃ c₂, webpackLocalConfig c₁ = Except.ok c₂ ∧
      (∃ qs, c₂.plugins = some qs ∧ qs.length = ps.length + 6) ∧
      (∃ m₂ rs₂, c₂.module = some m₂ ∧ m₂.rules = some rs₂ ∧
        rs₂.length = rs.length + 2) ∧
      c₂.entry = c₁.entry ∧
      c₂.output.map OutputCfg.publicPath = c₁.output.map OutputCfg.publicPath ∧
      c₂.devtool = c₁.devtool := by
  obtain ⟨o, ps', m', rs', ho, hp', hm', hr', rfl⟩ :=
    webpackLocalConfig_ok c c₁ h₁
  rw [hps] at hp'
  cases hp'
  rw [hm] at hm'
  cases hm'
  rw [hrs] at hr'
  cases hr'
  refine ⟨_, rfl, ⟨_, rfl, ?_⟩, ⟨_, _, rfl, rfl, ?_⟩, rfl, rfl, rfl⟩
  · simp [addedPlugins]
  · simp

/-- C7 witness at `sampleConfig`. -/
theorem overlay_not_idempotent_witness :
    sampleConfig.plugins = some [Plugin.basePlugin 0] ∧
    sampleConfig.module = some { rules := some [], others := [("noParse", "x")] } ∧
    webpackLocalConfig sampleConfig = Except.ok sampleResult ∧
    (∃ c₂, webpackLocalConfig sampleResult = Except.ok c₂ ∧
      (∃ qs, c₂.plugins = some qs ∧ qs.length = [Plugin.basePlugin 0].length + 6) ∧
      (∃ m₂ rs₂, c₂.module = some m₂ ∧ m₂.rules = some rs₂ ∧
        rs₂.length = ([] : List Rule).length + 2) ∧
      c₂.entry = sampleResult.entry ∧
      c₂.output.map OutputCfg.publicPath =
        sampleResult.output.map OutputCfg.publicPath ∧
      c₂.devtool = sampleResult.devtool) :=
  ⟨rfl, rfl, rfl,
    overlay_not_idempotent sampleConfig sampleResult [Plugin.basePlugin 0]
      { rules := some [], others := [("noParse", "x")] } [] rfl rfl rfl rfl⟩

/-- C8: a base configuration missing `output`, missing `module`, or whose
`module` lacks `rules`, makes the overlay fail with a missing-field access
error; conversely, whenever all the touched fields are present the overlay
succeeds. -/
theorem overlay_missing_fields (c : Config) :
    (c.output = none → ∃ e, webpackLocalConfig c = Except.error e) ∧
    (c.module = none → ∃ e, webpackLocalConfig c = Except.error e) ∧
    (∀ m, c.module = some m → m.rules = none →
      ∃ e, webpackLocalConfig c = Except.error e) ∧
    (∀ o ps m rs, c.output = some o → c.plugins = some ps →
      c.module = some m → m.rules = some rs →
      ∃ c', webpackLocalConfig c = Except.ok c') := by
  obtain ⟨e, co, cp, cd, cm, cos⟩ := c
  refine ⟨?_, ?_, ?_, ?_⟩
  · intro h
    dsimp only at h
    subst h
    exact ⟨_, rfl⟩
  · intro h
    dsimp only at h
    subst h
    rcases co with _ | o
    · exact ⟨_, rfl⟩
    · rcases cp with _ | ps
      · exact ⟨_, rfl⟩
      · exact ⟨_, rfl⟩
  · intro m hm hrn
    dsimp only at hm
    subst hm
    obtain ⟨mr, mo⟩ := m
    dsimp only at hrn
    subst hrn
    rcases co with _ | o
    · exact ⟨_, rfl⟩
    · rcases cp with _ | ps
      · exact ⟨_, rfl⟩
      · exact ⟨_, rfl⟩
  · intro o ps m rs ho hp hm hr
    dsimp only at ho hp hm
    subst ho
    subst hp
    subst hm
    obtain ⟨mr, mo⟩ := m
    dsimp only at hr
    subst hr
    exact ⟨_, rfl⟩

/-- C8 witness: a configuration with no `output` fails, one with no
`module.rules` fails, and the complete `sampleConfig` succeeds. -/
theorem overlay_missing_fields_witness :
    noOutputConfig.output = none ∧
    (∃ e, webpackLocalConfig noOutputConfig = Except.error e) ∧
    noRulesConfig.module = some { rules := none, others := [] } ∧
    (∃ e, webpackLocalConfig noRulesConfig = Except.error e) ∧
    (∃ c', webpackLocalConfig sampleConfig = Except.ok c') :=
  ⟨rfl, (overlay_missing_fields noOutputConfig).1 rfl,
   rfl, (overlay_missing_fields noRulesConfig).2.2.1
     { rules := none, others := [] } rfl rfl,
   (overlay_missing_fields sampleConfig).2.2.2
     { publicPath := some "/static/", others := [("path", "dist")] }
     [Plugin.basePlugin 0]
     { rules := some [], others := [("noParse", "x")] } [] rfl rfl rfl rfl⟩

/-- C9: the overlay is a deterministic transformation of its input: equal
base configurations yield equal results (in this embedding it is a pure
function of type `Config → Except String Config`, with no effects). -/
theorem overlay_deterministic (c₁ c₂ : Config) (h : c₁ = c₂) :
    webpackLocalConfig c₁ = webpackLocalConfig c₂ := by
  rw [h]

/-- C9 witness at `sampleConfig`. -/
theorem overlay_deterministic_witness :
    sampleConfig = sampleConfig ∧
    webpackLocalConfig sampleConfig = webpackLocalConfig sampleConfig :=
  ⟨rfl, overlay_deterministic sampleConfig sampleConfig rfl⟩

/-- C10: a base configuration missing `plugins` also makes the overlay
fail with a missing-field access error; when `output` is present, the
failure is exactly the access error of `concat` on the missing `plugins`
sequence. -/
theorem overlay_missing_plugins (c : Config) (hp : c.plugins = none) :
    (∃ e, webpackLocalConfig c = Except.error e) ∧
    (∀ o, c.output = some o →
      webpackLocalConfig c =
        Except.error "TypeError: cannot read concat of undefined") := by
  obtain ⟨e, co, cp, cd, cm, cos⟩ := c
  dsimp only at hp
  subst hp
  constructor
  · rcases co with _ | o
    · exact ⟨_, rfl⟩
    · exact ⟨_, rfl⟩
  · intro o ho
    dsimp only at ho
    subst ho
    rfl

/-- C10 witness at `noPluginsConfig`. -/
theorem overlay_missing_plugins_witness :
    noPluginsConfig.plugins = none ∧
    (∃ e, webpackLocalConfig noPluginsConfig = Except.error e) :=
  ⟨rfl, (overlay_missing_plugins noPluginsConfig rfl).1⟩
